import Mathlib

/-!
Verification of the EasyPayPal API gateway client (src/index.js).

The client is shallowly embedded: the mutable fields of the `EasyPayPal`
class become a `ClientState` record threaded through every operation, the
wall clock (JS Date.now, in milliseconds) is an explicit integer argument,
and the network is an oracle mapping each dispatch attempt to its outcome.
All definitions are translated directly from the JavaScript source.
-/

namespace EzPaypal

/-- Response payload as the client observes it: an opaque JSON body of which
the client only ever reads the optional message field (error paths) and the
optional verification status field (webhook verification). -/
structure Payload where
  message : Option String
  verification_status : Option String
deriving DecidableEq, Repr

/-- An HTTP error response: status code plus body, as exposed by axios on
error.response. -/
structure HttpResponse where
  status : Int
  data : Payload
deriving DecidableEq, Repr

/-- The error value axios throws: a message, and the response when the server
answered (absent on network failure). -/
structure AxiosError where
  message : String
  response : Option HttpResponse
deriving DecidableEq, Repr

/-- Error classes produced by parseError (src/index.js lines 141-197). -/
inductive ErrorType where
  | NETWORK_ERROR
  | BAD_REQUEST
  | AUTHENTICATION_FAILURE
  | AUTHORIZATION_FAILURE
  | NOT_FOUND
  | VALIDATION_ERROR
  | RATE_LIMIT_EXCEEDED
  | INTERNAL_SERVER_ERROR
  | UNKNOWN_ERROR
deriving DecidableEq, Repr

/-- Mutable instance state of the EasyPayPal class (constructor,
src/index.js lines 71-78): cached token, its expiry (ms timestamp),
the request counter, and the rate-limit window. maxRequestsPerMinute is
set once in the constructor and never written afterwards. -/
structure ClientState where
  accessToken : Option String
  tokenExpiry : Option Int
  requestCounter : Nat
  rateLimitCount : Nat
  rateLimitWindow : Int
  maxRequestsPerMinute : Nat
deriving DecidableEq, Repr

/-- Result of parseError: classified type, message, the raw payload when a
response was present, and the raw status when a response was present. -/
structure ParsedError where
  type : ErrorType
  message : String
  details : Option Payload
  status : Option Int
deriving DecidableEq, Repr

/-- parseError (src/index.js lines 141-197). Classifies an axios error by
its HTTP status; as a side effect, a 401 clears the cached access token
(line 165), so the updated state is returned alongside the classification. -/
def parseError (s : ClientState) (error : AxiosError) : ParsedError × ClientState :=
  match error.response with
  | none =>
      (⟨ErrorType.NETWORK_ERROR, error.message, none, none⟩, s)
  | some resp =>
      let status := resp.status
      let data := resp.data
      if status = 400 then
        (⟨ErrorType.BAD_REQUEST, data.message.getD "Invalid request parameters",
          some data, some status⟩, s)
      else if status = 401 then
        (⟨ErrorType.AUTHENTICATION_FAILURE, "Authentication failed. Check your credentials.",
          some data, some status⟩, { s with accessToken := none })
      else if status = 403 then
        (⟨ErrorType.AUTHORIZATION_FAILURE, "Access forbidden. Check your permissions.",
          some data, some status⟩, s)
      else if status = 404 then
        (⟨ErrorType.NOT_FOUND, "Resource not found", some data, some status⟩, s)
      else if status = 422 then
        (⟨ErrorType.VALIDATION_ERROR, data.message.getD "Validation error",
          some data, some status⟩, s)
      else if status = 429 then
        (⟨ErrorType.RATE_LIMIT_EXCEEDED, "Rate limit exceeded. Please retry after some time.",
          some data, some status⟩, s)
      else if status = 500 then
        (⟨ErrorType.INTERNAL_SERVER_ERROR, "PayPal server error. Please try again later.",
          some data, some status⟩, s)
      else
        (⟨ErrorType.UNKNOWN_ERROR, data.message.getD ("HTTP " ++ toString status ++ " error"),
          some data, some status⟩, s)

/-- Credential pair supplied at construction (clientId, clientSecret). -/
structure Credentials where
  clientId : String
  clientSecret : String
deriving DecidableEq, Repr

/-- Token endpoint response body: access_token and expires_in (seconds). -/
structure TokenResponse where
  access_token : String
  expires_in : Int
deriving DecidableEq, Repr

/-- The outbound token-exchange request built by getAccessToken
(src/index.js lines 96-107). -/
structure ExchangeRequest where
  url : String
  body : String
  authHeader : String
  contentType : String
deriving DecidableEq, Repr

/-- Standard base64 alphabet. -/
def base64Table : List Char :=
  "ABCDEFGHIJKLMNOPQRSTUVWXYZabcdefghijklmnopqrstuvwxyz0123456789+/".toList

/-- Character for a 6-bit group. -/
def base64Char (n : Nat) : Char := base64Table.getD n '='

/-- Base64 encoding of a byte sequence, as Buffer.toString of the source
produces for the credential pair. -/
def base64Encode : List Nat → List Char
  | [] => []
  | [a] =>
      [base64Char (a / 4), base64Char (a % 4 * 16), '=', '=']
  | [a, b] =>
      [base64Char (a / 4), base64Char (a % 4 * 16 + b / 16), base64Char (b % 16 * 4), '=']
  | a :: b :: c :: rest =>
      base64Char (a / 4) :: base64Char (a % 4 * 16 + b / 16) ::
        base64Char (b % 16 * 4 + c / 64) :: base64Char (c % 64) :: base64Encode rest

/-- HTTP Basic authorization header built from the credential pair
(src/index.js line 96 and 103): base64 of clientId, a colon, clientSecret. -/
def basicAuth (clientId clientSecret : String) : String :=
  "Basic " ++ String.mk (base64Encode ((clientId ++ ":" ++ clientSecret).toList.map Char.toNat))

/-- Truthiness test guarding the token cache (src/index.js line 91):
this.accessToken and this.tokenExpiry are truthy and now is strictly
before the expiry. A JS string is truthy iff nonempty; a JS number is
truthy iff nonzero. -/
def tokenCacheValid (s : ClientState) (now : Int) : Bool :=
  match s.accessToken, s.tokenExpiry with
  | some tok, some exp => decide (tok ≠ "") && decide (exp ≠ 0) && decide (now < exp)
  | _, _ => false

/-- Outcome of getAccessToken: a cache hit (no network traffic), a fresh
token obtained through exactly one exchange request, or a failed exchange. -/
inductive TokenOutcome where
  | cachedHit (token : String)
  | fresh (token : String) (req : ExchangeRequest)
  | failed (msg : String) (req : ExchangeRequest)
deriving DecidableEq, Repr

/-- Number of token-exchange network calls an outcome represents. -/
def TokenOutcome.exchangeCount : TokenOutcome → Nat
  | .cachedHit _ => 0
  | .fresh _ _ => 1
  | .failed _ _ => 1

/-- The token-exchange request of getAccessToken (src/index.js lines 98-107):
POST to the oauth2 token path with client-credentials grant under HTTP Basic
authentication built from the credential pair. -/
def buildExchangeRequest (creds : Credentials) (baseURL : String) : ExchangeRequest :=
  { url := baseURL ++ "/v1/oauth2/token"
    body := "grant_type=client_credentials"
    authHeader := basicAuth creds.clientId creds.clientSecret
    contentType := "application/x-www-form-urlencoded" }

/-- getAccessToken (src/index.js lines 90-116). Returns the cached token when
the cache guard passes; otherwise performs one exchange, stores the returned
token and the expiry now + expires_in seconds minus a one-minute margin
(line 110), and returns the new token; a failed exchange raises. -/
def getAccessToken (creds : Credentials) (baseURL : String)
    (exchange : ExchangeRequest → Except String TokenResponse)
    (s : ClientState) (now : Int) : TokenOutcome × ClientState :=
  if tokenCacheValid s now then
    (TokenOutcome.cachedHit (s.accessToken.getD ""), s)
  else
    let req := buildExchangeRequest creds baseURL
    match exchange req with
    | Except.ok resp =>
        (TokenOutcome.fresh resp.access_token req,
          { s with
              accessToken := some resp.access_token
              tokenExpiry := some (now + resp.expires_in * 1000 - 60000) })
    | Except.error msg =>
        (TokenOutcome.failed ("Failed to get PayPal access token: " ++ msg) req, s)

/-- checkRateLimit (src/index.js lines 121-136). Resets the window when its
age strictly exceeds 60 seconds; then either rejects (count at ceiling,
counter not incremented) or increments the counter and passes. The first
component is false exactly when the rate-limit error is thrown. -/
def checkRateLimit (s : ClientState) (now : Int) : Bool × ClientState :=
  let windowDuration : Int := 60 * 1000
  let s1 := if now - s.rateLimitWindow > windowDuration
            then { s with rateLimitWindow := now, rateLimitCount := 0 }
            else s
  if s1.rateLimitCount ≥ s1.maxRequestsPerMinute then
    (false, s1)
  else
    (true, { s1 with rateLimitCount := s1.rateLimitCount + 1 })

/-- Constructor options relevant to the request pipeline; none distinguishes
an absent option from an absent environment variable fallback. -/
structure Options where
  timeout : Option Nat
  retryAttempts : Option Nat
  maxRequestsPerMinute : Option Nat
deriving DecidableEq, Repr

/-- JavaScript `x || d` over an optional number: 0 is falsy, so it falls
through to the default, as does an absent value. -/
def jsOrNat (o : Option Nat) (d : Nat) : Nat :=
  match o with
  | some 0 => d
  | some n => n
  | none => d

/-- Configuration stored by the constructor (src/index.js lines 58-59):
timeout defaulting to 30000 ms and retryAttempts defaulting to 3. -/
structure ClientConfig where
  timeout : Nat
  retryAttempts : Nat
deriving DecidableEq, Repr

/-- Constructor: config defaults (src/index.js lines 58-59). -/
def mkConfig (opts : Options) : ClientConfig :=
  { timeout := jsOrNat opts.timeout 30000
    retryAttempts := jsOrNat opts.retryAttempts 3 }

/-- Constructor: initial mutable state (src/index.js lines 71-78). -/
def mkClientState (opts : Options) (now : Int) : ClientState :=
  { accessToken := none
    tokenExpiry := none
    requestCounter := 0
    rateLimitCount := 0
    rateLimitWindow := now
    maxRequestsPerMinute := jsOrNat opts.maxRequestsPerMinute 1000 }

/-- The axios request configuration makeRequest builds (src/index.js lines
217-227). Line 226 sets the timeout to the literal 30000 regardless of the
stored configuration. -/
structure AxiosConfig where
  method : String
  url : String
  authHeader : String
  contentType : String
  requestIdHeader : String
  preferHeader : String
  timeout : Nat
deriving DecidableEq, Repr

/-- Request configuration builder (src/index.js lines 217-227). The stored
client configuration is in scope in the source but unused there: the timeout
field is the hardcoded literal 30000. -/
def buildAxiosConfig (cfg : ClientConfig) (baseURL method endpoint token requestId : String) :
    AxiosConfig :=
  { method := method
    url := baseURL ++ endpoint
    authHeader := "Bearer " ++ token
    contentType := "application/json"
    requestIdHeader := requestId
    preferHeader := "return=representation"
    timeout := 30000 }

/-- The enhanced error makeRequest throws on a non-retried failure
(src/index.js lines 260-266). -/
structure EnhancedError where
  message : String
  type : ErrorType
  status : Option Int
  details : Option Payload
  requestId : String
deriving DecidableEq, Repr

/-- Printed name of an error class, as interpolated into the thrown message. -/
def ErrorType.name : ErrorType → String
  | .NETWORK_ERROR => "NETWORK_ERROR"
  | .BAD_REQUEST => "BAD_REQUEST"
  | .AUTHENTICATION_FAILURE => "AUTHENTICATION_FAILURE"
  | .AUTHORIZATION_FAILURE => "AUTHORIZATION_FAILURE"
  | .NOT_FOUND => "NOT_FOUND"
  | .VALIDATION_ERROR => "VALIDATION_ERROR"
  | .RATE_LIMIT_EXCEEDED => "RATE_LIMIT_EXCEEDED"
  | .INTERNAL_SERVER_ERROR => "INTERNAL_SERVER_ERROR"
  | .UNKNOWN_ERROR => "UNKNOWN_ERROR"

/-- Retry guard of makeRequest (src/index.js line 250): the retry counter is
below the literal ceiling 3 and the classified error is an authentication
failure or has HTTP status exactly 500. -/
def shouldRetry (parsed : ParsedError) (retryCount : Nat) : Bool :=
  decide (retryCount < 3) &&
    (parsed.type == ErrorType.AUTHENTICATION_FAILURE || parsed.status == some 500)

/-- How a dispatched call to makeRequest ends: decoded payload on success, a
thrown enhanced error on classified failure, the local rate-limit error from
checkRateLimit, or a propagated token-exchange failure. -/
inductive ReqOutcome where
  | success (payload : Payload)
  | apiError (e : EnhancedError)
  | rateLimited
  | tokenFailed (msg : String)
deriving DecidableEq, Repr

/-- Observable trace of one makeRequest call: how many network dispatches
were performed, how many token exchanges, and the backoff waits (ms) in
order. -/
structure ReqTrace where
  attempts : Nat
  exchanges : Nat
  waits : List Nat
deriving DecidableEq, Repr

/-- Result of makeRequest: outcome, final instance state, and trace. -/
structure ReqResult where
  outcome : ReqOutcome
  state : ClientState
  trace : ReqTrace
deriving Repr

/-- Per-call environment of makeRequest: credentials and base URL fixed at
construction, the stored configuration, and oracles giving the token
endpoint's answer, the dispatch outcome, and the wall clock for each attempt
number. -/
structure Env where
  creds : Credentials
  baseURL : String
  cfg : ClientConfig
  exchange : Nat → ExchangeRequest → Except String TokenResponse
  net : Nat → Except AxiosError Payload
  time : Nat → Int

/-- makeRequest (src/index.js lines 202-268). Checks the local rate limit,
acquires a token, increments the request counter, builds the request
configuration with its per-call idempotency correlation id, and dispatches.
On success it returns the decoded payload. On failure it classifies the
error; when the retry guard holds (counter below the literal 3 and the class
is an authentication failure or status 500) it waits 2 ^ retryCount seconds
and recurses with the counter incremented, otherwise it throws the enhanced
error carrying class, status, payload, and correlation id. -/
def makeRequest (env : Env) (method endpoint : String) (s : ClientState)
    (retryCount : Nat) : ReqResult :=
  let now := env.time retryCount
  let rl := checkRateLimit s now
  if rl.1 = false then
    { outcome := ReqOutcome.rateLimited, state := rl.2
      trace := { attempts := 0, exchanges := 0, waits := [] } }
  else
    let tk := getAccessToken env.creds env.baseURL (env.exchange retryCount) rl.2 now
    match tk.1 with
    | TokenOutcome.failed msg _ =>
        { outcome := ReqOutcome.tokenFailed msg, state := tk.2
          trace := { attempts := 0, exchanges := 1, waits := [] } }
    | tok =>
        let ex := tok.exchangeCount
        let token := match tok with
          | TokenOutcome.cachedHit t => t
          | TokenOutcome.fresh t _ => t
          | TokenOutcome.failed _ _ => ""
        let s3 : ClientState := { tk.2 with requestCounter := tk.2.requestCounter + 1 }
        let requestId := toString s3.requestCounter ++ "-" ++ toString now
        let _cfgBuilt := buildAxiosConfig env.cfg env.baseURL method endpoint token requestId
        match env.net retryCount with
        | Except.ok payload =>
            { outcome := ReqOutcome.success payload, state := s3
              trace := { attempts := 1, exchanges := ex, waits := [] } }
        | Except.error err =>
            let pe := parseError s3 err
            if h : shouldRetry pe.1 retryCount = true then
              let wait := 2 ^ retryCount * 1000
              let r := makeRequest env method endpoint pe.2 (retryCount + 1)
              { outcome := r.outcome, state := r.state
                trace := { attempts := 1 + r.trace.attempts
                           exchanges := ex + r.trace.exchanges
                           waits := wait :: r.trace.waits } }
            else
              { outcome := ReqOutcome.apiError
                  { message := "PayPal API Error [" ++ pe.1.type.name ++ "]: " ++ pe.1.message
                    type := pe.1.type
                    status := pe.1.status
                    details := pe.1.details
                    requestId := requestId }
                state := pe.2
                trace := { attempts := 1, exchanges := ex, waits := [] } }
termination_by 4 - retryCount
decreasing_by
  simp only [shouldRetry, Bool.and_eq_true, decide_eq_true_eq] at h
  omega

/-! Shared concrete fixtures used by witnesses and scenario theorems. -/

/-- Example credential pair. -/
def exCreds : Credentials := { clientId := "id", clientSecret := "secret" }

/-- Example sandbox base URL, as the constructor selects for sandbox mode. -/
def exBase : String := "https://api-m.sandbox.paypal.com"

/-- Example payload with no readable fields. -/
def exPayload : Payload := { message := none, verification_status := none }

/-- Example client state holding a cached token. -/
def exTokState : ClientState :=
  { accessToken := some "cached-token", tokenExpiry := some 5000000
    requestCounter := 0, rateLimitCount := 0, rateLimitWindow := 1000000
    maxRequestsPerMinute := 1000 }

/-- Axios error carrying a given HTTP status with the example payload. -/
def exErr (status : Int) : AxiosError :=
  { message := "Request failed with status code " ++ toString status
    response := some { status := status, data := exPayload } }

/-- Axios error with no response object (network failure). -/
def exNetErr : AxiosError := { message := "socket hang up", response := none }

/-- C4: parseError classifies a failed request as a function of the response
alone: no response gives NETWORK_ERROR; statuses 400, 401, 403, 404, 422,
429, 500 give BAD_REQUEST, AUTHENTICATION_FAILURE (clearing the cached
token), AUTHORIZATION_FAILURE, NOT_FOUND, VALIDATION_ERROR,
RATE_LIMIT_EXCEEDED, INTERNAL_SERVER_ERROR respectively; every other status
gives UNKNOWN_ERROR; when a response is present the result carries the raw
status and payload, and no status other than 401 changes the state. -/
theorem C4_parseError_classification :
    (∀ (s : ClientState) (e : AxiosError), e.response = none →
        parseError s e =
          (⟨ErrorType.NETWORK_ERROR, e.message, none, none⟩, s)) ∧
    (∀ (s : ClientState) (e : AxiosError) (resp : HttpResponse), e.response = some resp →
        (parseError s e).1.status = some resp.status ∧
        (parseError s e).1.details = some resp.data) ∧
    (∀ (s : ClientState) (e : AxiosError) (resp : HttpResponse), e.response = some resp →
        (resp.status = 400 → (parseError s e).1.type = ErrorType.BAD_REQUEST) ∧
        (resp.status = 401 → (parseError s e).1.type = ErrorType.AUTHENTICATION_FAILURE ∧
            (parseError s e).2 = { s with accessToken := none }) ∧
        (resp.status = 403 → (parseError s e).1.type = ErrorType.AUTHORIZATION_FAILURE) ∧
        (resp.status = 404 → (parseError s e).1.type = ErrorType.NOT_FOUND) ∧
        (resp.status = 422 → (parseError s e).1.type = ErrorType.VALIDATION_ERROR) ∧
        (resp.status = 429 → (parseError s e).1.type = ErrorType.RATE_LIMIT_EXCEEDED) ∧
        (resp.status = 500 → (parseError s e).1.type = ErrorType.INTERNAL_SERVER_ERROR) ∧
        (resp.status ≠ 400 → resp.status ≠ 401 → resp.status ≠ 403 → resp.status ≠ 404 →
          resp.status ≠ 422 → resp.status ≠ 429 → resp.status ≠ 500 →
            (parseError s e).1.type = ErrorType.UNKNOWN_ERROR) ∧
        (resp.status ≠ 401 → (parseError s e).2 = s)) := by
  refine ⟨?_, ?_, ?_⟩
  · intro s e h
    simp [parseError, h]
  · intro s e resp h
    simp only [parseError, h]
    split_ifs <;> simp
  · intro s e resp h
    simp only [parseError, h]
    refine ⟨?_, ?_, ?_, ?_, ?_, ?_, ?_, ?_, ?_⟩ <;>
      · intros
        split_ifs <;> simp_all

/-- Witness for C4: concrete evaluations through the theorem — a 401 error
classifies as an authentication failure and clears the cached token, and a
missing response classifies as a network error. -/
theorem C4_parseError_classification_witness :
    (parseError exTokState (exErr 401)).1.type = ErrorType.AUTHENTICATION_FAILURE ∧
    (parseError exTokState (exErr 401)).2.accessToken = none ∧
    (parseError exTokState exNetErr).1.type = ErrorType.NETWORK_ERROR ∧
    (parseError exTokState (exErr 429)).1.type = ErrorType.RATE_LIMIT_EXCEEDED := by
  obtain ⟨hnet, _, htable⟩ := C4_parseError_classification
  have h401 := (htable exTokState (exErr 401) ⟨401, exPayload⟩ rfl).2.1 rfl
  have h429 := (htable exTokState (exErr 429) ⟨429, exPayload⟩ rfl).2.2.2.2.2.1 rfl
  refine ⟨h401.1, ?_, ?_, h429⟩
  · rw [h401.2]
  · rw [hnet exTokState exNetErr rfl]

/-- Iterated throttle checks: checkRateLimit run once per listed clock value
(in order), collecting each pass flag and threading the state, as successive
makeRequest dispatches do before any network activity. -/
def runThrottle (s : ClientState) : List Int → List Bool × ClientState
  | [] => ([], s)
  | t :: ts =>
      let r := checkRateLimit s t
      let rest := runThrottle r.2 ts
      (r.1 :: rest.1, rest.2)

/-- checkRateLimit case: inside the window with room below the ceiling the
check passes and only increments the counter. -/
theorem checkRateLimit_pass (s : ClientState) (now : Int)
    (hw : now - s.rateLimitWindow ≤ 60000)
    (hc : s.rateLimitCount < s.maxRequestsPerMinute) :
    checkRateLimit s now = (true, { s with rateLimitCount := s.rateLimitCount + 1 }) := by
  simp only [checkRateLimit]
  split_ifs <;> first | rfl | omega

/-- checkRateLimit case: inside the window at the ceiling the check rejects
and changes nothing. -/
theorem checkRateLimit_reject (s : ClientState) (now : Int)
    (hw : now - s.rateLimitWindow ≤ 60000)
    (hc : s.maxRequestsPerMinute ≤ s.rateLimitCount) :
    checkRateLimit s now = (false, s) := by
  simp only [checkRateLimit]
  split_ifs <;> first | rfl | omega

/-- checkRateLimit case: once the window is older than 60 seconds the
counter and window start are reset before the ceiling test. -/
theorem checkRateLimit_reset (s : ClientState) (now : Int)
    (hw : 60000 < now - s.rateLimitWindow) :
    checkRateLimit s now =
      checkRateLimit { s with rateLimitCount := 0, rateLimitWindow := now } now := by
  simp only [checkRateLimit]
  split_ifs <;> first | rfl | omega

/-- When every check happens within the window and the ceiling leaves room
for the whole list, every check passes and the counter grows by exactly the
number of checks, everything else unchanged. -/
theorem runThrottle_all_pass (times : List Int) : ∀ (s : ClientState),
    (∀ t ∈ times, t - s.rateLimitWindow ≤ 60000) →
    s.rateLimitCount + times.length ≤ s.maxRequestsPerMinute →
    runThrottle s times =
      (List.replicate times.length true,
        { s with rateLimitCount := s.rateLimitCount + times.length }) := by
  induction times with
  | nil => intro s _ _; simp [runThrottle]
  | cons t ts ih =>
      intro s hw hc
      simp only [List.length_cons] at hc
      have hstep := checkRateLimit_pass s t (hw t (List.mem_cons_self t ts)) (by omega)
      have ihres := ih { s with rateLimitCount := s.rateLimitCount + 1 }
        (by intro u hu; exact hw u (List.mem_cons_of_mem t hu))
        (by simpa using by omega)
      simp only [runThrottle, hstep, ihres, List.length_cons]
      simp only [Prod.mk.injEq, List.replicate_succ, ClientState.mk.injEq, true_and, and_true]
      omega

/-- C3: checkRateLimit before every dispatch: a window older than 60 seconds
is reset (counter zero, window start now) before the test; a counter at the
ceiling rejects without incrementing and, inside makeRequest, without any
network dispatch or token exchange; otherwise the counter is incremented and
the call proceeds. For every ceiling N, N checks within one window all pass
(counter reaching N) and an (N+1)th check in the same window fails with the
state unchanged. -/
theorem C3_checkRateLimit :
    (∀ (s : ClientState) (now : Int), 60000 < now - s.rateLimitWindow →
        checkRateLimit s now =
          (if s.maxRequestsPerMinute = 0 then
            (false, { s with rateLimitWindow := now, rateLimitCount := 0 })
          else
            (true, { s with rateLimitWindow := now, rateLimitCount := 1 }))) ∧
    (∀ (s : ClientState) (now : Int), now - s.rateLimitWindow ≤ 60000 →
        s.maxRequestsPerMinute ≤ s.rateLimitCount →
        checkRateLimit s now = (false, s)) ∧
    (∀ (s : ClientState) (now : Int), now - s.rateLimitWindow ≤ 60000 →
        s.rateLimitCount < s.maxRequestsPerMinute →
        checkRateLimit s now = (true, { s with rateLimitCount := s.rateLimitCount + 1 })) ∧
    (∀ (env : Env) (method endpoint : String) (s : ClientState) (r : Nat),
        (checkRateLimit s (env.time r)).1 = false →
        makeRequest env method endpoint s r =
          { outcome := ReqOutcome.rateLimited, state := (checkRateLimit s (env.time r)).2
            trace := { attempts := 0, exchanges := 0, waits := [] } }) ∧
    (∀ (s : ClientState) (times : List Int),
        s.rateLimitCount = 0 →
        times.length = s.maxRequestsPerMinute →
        (∀ t ∈ times, t - s.rateLimitWindow ≤ 60000) →
        (runThrottle s times).1 = List.replicate s.maxRequestsPerMinute true ∧
        (runThrottle s times).2 = { s with rateLimitCount := s.maxRequestsPerMinute } ∧
        (∀ t' : Int, t' - s.rateLimitWindow ≤ 60000 →
          checkRateLimit (runThrottle s times).2 t' = (false, (runThrottle s times).2))) := by
  refine ⟨?_, ?_, ?_, ?_, ?_⟩
  · intro s now h
    rw [checkRateLimit_reset s now h]
    by_cases hm : s.maxRequestsPerMinute = 0
    · rw [if_pos hm]
      exact checkRateLimit_reject _ now (by simp) (by simp [hm])
    · rw [if_neg hm]
      have := checkRateLimit_pass { s with rateLimitCount := 0, rateLimitWindow := now } now
        (by simp) (by simpa using Nat.pos_of_ne_zero hm)
      simpa using this
  · intro s now h hm
    exact checkRateLimit_reject s now h hm
  · intro s now h hm
    exact checkRateLimit_pass s now h hm
  · intro env method endpoint s r h
    rw [makeRequest.eq_def]
    simp [h]
  · intro s times h0 hlen hw
    have hall := runThrottle_all_pass times s hw (by omega)
    have hfin : (runThrottle s times).2 =
        { s with rateLimitCount := s.maxRequestsPerMinute } := by
      rw [hall]
      simp only [ClientState.mk.injEq, true_and, and_true]
      omega
    refine ⟨by rw [hall, hlen], hfin, ?_⟩
    intro t' ht'
    rw [hfin]
    exact checkRateLimit_reject _ t' (by simpa using ht') (by simp)

/-- Witness for C3: a ceiling of 2 with both checks inside the window — both
pass, the counter reaches 2, and a third check in the same window fails and
leaves the state unchanged; and a reset after the window elapses. -/
theorem C3_checkRateLimit_witness :
    (runThrottle
        { accessToken := none, tokenExpiry := none, requestCounter := 0
          rateLimitCount := 0, rateLimitWindow := 0, maxRequestsPerMinute := 2 }
        [1000, 2000]).1 = [true, true] ∧
    (runThrottle
        { accessToken := none, tokenExpiry := none, requestCounter := 0
          rateLimitCount := 0, rateLimitWindow := 0, maxRequestsPerMinute := 2 }
        [1000, 2000]).2.rateLimitCount = 2 ∧
    checkRateLimit
        (runThrottle
          { accessToken := none, tokenExpiry := none, requestCounter := 0
            rateLimitCount := 0, rateLimitWindow := 0, maxRequestsPerMinute := 2 }
          [1000, 2000]).2 3000 =
      (false,
        (runThrottle
          { accessToken := none, tokenExpiry := none, requestCounter := 0
            rateLimitCount := 0, rateLimitWindow := 0, maxRequestsPerMinute := 2 }
          [1000, 2000]).2) ∧
    checkRateLimit
        { accessToken := none, tokenExpiry := none, requestCounter := 0
          rateLimitCount := 2, rateLimitWindow := 0, maxRequestsPerMinute := 2 }
        61001 =
      (true,
        { accessToken := none, tokenExpiry := none, requestCounter := 0
          rateLimitCount := 1, rateLimitWindow := 61001, maxRequestsPerMinute := 2 }) := by
  obtain ⟨hreset, _, _, _, hseq⟩ := C3_checkRateLimit
  have h := hseq
    { accessToken := none, tokenExpiry := none, requestCounter := 0
      rateLimitCount := 0, rateLimitWindow := 0, maxRequestsPerMinute := 2 }
    [1000, 2000] rfl rfl (by decide)
  refine ⟨h.1, by rw [h.2.1], h.2.2 3000 (by decide), ?_⟩
  have hr := hreset
    { accessToken := none, tokenExpiry := none, requestCounter := 0
      rateLimitCount := 2, rateLimitWindow := 0, maxRequestsPerMinute := 2 }
    61001 (by decide)
  simpa using hr

/-- checkRateLimit keeps the counter at or below the ceiling and never
writes the ceiling. -/
theorem checkRateLimit_inv (s : ClientState) (now : Int)
    (h : s.rateLimitCount ≤ s.maxRequestsPerMinute) :
    (checkRateLimit s now).2.rateLimitCount ≤ (checkRateLimit s now).2.maxRequestsPerMinute ∧
    (checkRateLimit s now).2.maxRequestsPerMinute = s.maxRequestsPerMinute := by
  simp only [checkRateLimit]
  split_ifs <;> refine ⟨?_, ?_⟩ <;> simp_all <;> omega

/-- getAccessToken only writes the token fields: the rate counter and
ceiling pass through. -/
theorem getAccessToken_rate_fields (creds : Credentials) (baseURL : String)
    (exchange : ExchangeRequest → Except String TokenResponse)
    (s : ClientState) (now : Int) :
    (getAccessToken creds baseURL exchange s now).2.rateLimitCount = s.rateLimitCount ∧
    (getAccessToken creds baseURL exchange s now).2.maxRequestsPerMinute =
      s.maxRequestsPerMinute := by
  simp only [getAccessToken]
  split_ifs
  · exact ⟨rfl, rfl⟩
  · cases exchange (buildExchangeRequest creds baseURL) <;> exact ⟨rfl, rfl⟩

/-- parseError only writes the token field: the rate counter and ceiling
pass through. -/
theorem parseError_rate_fields (s : ClientState) (e : AxiosError) :
    (parseError s e).2.rateLimitCount = s.rateLimitCount ∧
    (parseError s e).2.maxRequestsPerMinute = s.maxRequestsPerMinute := by
  rcases e with ⟨msg, res⟩
  cases res with
  | none => exact ⟨rfl, rfl⟩
  | some resp =>
      simp only [parseError]
      split_ifs <;> exact ⟨rfl, rfl⟩

/-- makeRequest, through all its retries, keeps the counter at or below the
ceiling and never writes the ceiling. -/
theorem makeRequest_rate_inv :
    ∀ (n : Nat) (env : Env) (method endpoint : String) (s : ClientState) (r : Nat),
      4 - r ≤ n →
      s.rateLimitCount ≤ s.maxRequestsPerMinute →
      (makeRequest env method endpoint s r).state.rateLimitCount ≤
        (makeRequest env method endpoint s r).state.maxRequestsPerMinute ∧
      (makeRequest env method endpoint s r).state.maxRequestsPerMinute =
        s.maxRequestsPerMinute := by
  intro n
  induction n using Nat.strong_induction_on with
  | _ n ih =>
    intro env method endpoint s r hn hinv
    have hrl := checkRateLimit_inv s (env.time r) hinv
    have htk := getAccessToken_rate_fields env.creds env.baseURL (env.exchange r)
      (checkRateLimit s (env.time r)).2 (env.time r)
    rw [makeRequest.eq_def]
    simp only []
    by_cases hb : (checkRateLimit s (env.time r)).1 = false
    · simp only [hb, reduceIte]
      exact hrl
    · rw [if_neg hb]
      rcases htok : (getAccessToken env.creds env.baseURL (env.exchange r)
          (checkRateLimit s (env.time r)).2 (env.time r)).1 with t | ⟨t, req⟩ | ⟨msg, req⟩
      · simp only [htok, TokenOutcome.exchangeCount]
        rcases hnet : env.net r with err | payload
        swap
        · simp only [hnet]
          exact ⟨by omega, by omega⟩
        · simp only [hnet]
          set s3 := { (getAccessToken env.creds env.baseURL (env.exchange r)
              (checkRateLimit s (env.time r)).2 (env.time r)).2 with
              requestCounter := (getAccessToken env.creds env.baseURL (env.exchange r)
                (checkRateLimit s (env.time r)).2 (env.time r)).2.requestCounter + 1 } with hs3
          have hpe := parseError_rate_fields s3 err
          have hs3f : s3.rateLimitCount = (getAccessToken env.creds env.baseURL (env.exchange r)
              (checkRateLimit s (env.time r)).2 (env.time r)).2.rateLimitCount ∧
              s3.maxRequestsPerMinute = (getAccessToken env.creds env.baseURL (env.exchange r)
              (checkRateLimit s (env.time r)).2 (env.time r)).2.maxRequestsPerMinute := by
            rw [hs3]
            exact ⟨rfl, rfl⟩
          by_cases hsr : shouldRetry (parseError s3 err).1 r = true
          · rw [dif_pos hsr]
            dsimp only
            have hr3 : r < 3 := by
              simp only [shouldRetry, Bool.and_eq_true, decide_eq_true_eq] at hsr
              exact hsr.1
            have hrec := ih (3 - r) (by omega) env method endpoint
              (parseError s3 err).2 (r + 1) (by omega) (by omega)
            exact ⟨hrec.1, by omega⟩
          · rw [dif_neg hsr]
            dsimp only
            exact ⟨by omega, by omega⟩
      · simp only [htok, TokenOutcome.exchangeCount]
        rcases hnet : env.net r with err | payload
        swap
        · simp only [hnet]
          exact ⟨by omega, by omega⟩
        · simp only [hnet]
          set s3 := { (getAccessToken env.creds env.baseURL (env.exchange r)
              (checkRateLimit s (env.time r)).2 (env.time r)).2 with
              requestCounter := (getAccessToken env.creds env.baseURL (env.exchange r)
                (checkRateLimit s (env.time r)).2 (env.time r)).2.requestCounter + 1 } with hs3
          have hpe := parseError_rate_fields s3 err
          have hs3f : s3.rateLimitCount = (getAccessToken env.creds env.baseURL (env.exchange r)
              (checkRateLimit s (env.time r)).2 (env.time r)).2.rateLimitCount ∧
              s3.maxRequestsPerMinute = (getAccessToken env.creds env.baseURL (env.exchange r)
              (checkRateLimit s (env.time r)).2 (env.time r)).2.maxRequestsPerMinute := by
            rw [hs3]
            exact ⟨rfl, rfl⟩
          by_cases hsr : shouldRetry (parseError s3 err).1 r = true
          · rw [dif_pos hsr]
            dsimp only
            have hr3 : r < 3 := by
              simp only [shouldRetry, Bool.and_eq_true, decide_eq_true_eq] at hsr
              exact hsr.1
            have hrec := ih (3 - r) (by omega) env method endpoint
              (parseError s3 err).2 (r + 1) (by omega) (by omega)
            exact ⟨hrec.1, by omega⟩
          · rw [dif_neg hsr]
            dsimp only
            exact ⟨by omega, by omega⟩
      · simp only [htok]
        exact ⟨by omega, by omega⟩

/-- Any sequence of throttle checks keeps the counter at or below the
ceiling and never writes the ceiling. -/
theorem runThrottle_inv (times : List Int) : ∀ (s : ClientState),
    s.rateLimitCount ≤ s.maxRequestsPerMinute →
    (runThrottle s times).2.rateLimitCount ≤ (runThrottle s times).2.maxRequestsPerMinute ∧
    (runThrottle s times).2.maxRequestsPerMinute = s.maxRequestsPerMinute := by
  induction times with
  | nil => intro s h; exact ⟨h, rfl⟩
  | cons t ts ih =>
      intro s h
      have hstep := checkRateLimit_inv s t h
      have := ih (checkRateLimit s t).2 hstep.1
      simp only [runThrottle]
      exact ⟨this.1, by rw [this.2, hstep.2]⟩

/-- C10: the rate counter never exceeds the ceiling at any point of any
sequence of client operations — it starts at 0 in the constructor; a passing
check increments the counter only from a value strictly below the ceiling
(the pre-increment value being either the old counter, or 0 when the window
just elapsed); a rejecting check never increments it; and the at-or-below
invariant is preserved by every run of throttle checks and by makeRequest
with all its retries, with the ceiling itself never written. -/
theorem C10_rate_counter_invariant :
    (∀ (opts : Options) (now : Int), (mkClientState opts now).rateLimitCount = 0) ∧
    (∀ (s : ClientState) (now : Int),
        ((checkRateLimit s now).1 = true →
          (60000 < now - s.rateLimitWindow →
            0 < s.maxRequestsPerMinute ∧ (checkRateLimit s now).2.rateLimitCount = 1) ∧
          (now - s.rateLimitWindow ≤ 60000 →
            s.rateLimitCount < s.maxRequestsPerMinute ∧
            (checkRateLimit s now).2.rateLimitCount = s.rateLimitCount + 1)) ∧
        ((checkRateLimit s now).1 = false →
          (60000 < now - s.rateLimitWindow →
            s.maxRequestsPerMinute = 0 ∧ (checkRateLimit s now).2.rateLimitCount = 0) ∧
          (now - s.rateLimitWindow ≤ 60000 →
            s.maxRequestsPerMinute ≤ s.rateLimitCount ∧
            (checkRateLimit s now).2.rateLimitCount = s.rateLimitCount))) ∧
    (∀ (s : ClientState) (times : List Int),
        s.rateLimitCount ≤ s.maxRequestsPerMinute →
        (runThrottle s times).2.rateLimitCount ≤ s.maxRequestsPerMinute) ∧
    (∀ (env : Env) (method endpoint : String) (s : ClientState) (r : Nat),
        s.rateLimitCount ≤ s.maxRequestsPerMinute →
        (makeRequest env method endpoint s r).state.rateLimitCount ≤ s.maxRequestsPerMinute ∧
        (makeRequest env method endpoint s r).state.maxRequestsPerMinute =
          s.maxRequestsPerMinute) := by
  refine ⟨fun _ _ => rfl, ?_, ?_, ?_⟩
  · intro s now
    constructor
    · intro hpass
      constructor
      · intro h1
        rw [checkRateLimit_reset s now h1] at hpass ⊢
        by_cases hm : 0 < s.maxRequestsPerMinute
        · refine ⟨hm, ?_⟩
          rw [checkRateLimit_pass _ now (by dsimp only; omega) (by dsimp only; omega)]
        · rw [checkRateLimit_reject _ now (by dsimp only; omega) (by dsimp only; omega)]
            at hpass
          exact absurd hpass (by simp)
      · intro h1
        by_cases hm : s.rateLimitCount < s.maxRequestsPerMinute
        · refine ⟨hm, ?_⟩
          rw [checkRateLimit_pass s now h1 hm]
        · rw [checkRateLimit_reject s now h1 (by omega)] at hpass
          exact absurd hpass (by simp)
    · intro hfail
      constructor
      · intro h1
        rw [checkRateLimit_reset s now h1] at hfail ⊢
        by_cases hm : 0 < s.maxRequestsPerMinute
        · rw [checkRateLimit_pass _ now (by dsimp only; omega) (by dsimp only; omega)]
            at hfail
          exact absurd hfail (by simp)
        · refine ⟨by omega, ?_⟩
          rw [checkRateLimit_reject _ now (by dsimp only; omega) (by dsimp only; omega)]
      · intro h1
        by_cases hm : s.rateLimitCount < s.maxRequestsPerMinute
        · rw [checkRateLimit_pass s now h1 hm] at hfail
          exact absurd hfail (by simp)
        · refine ⟨by omega, ?_⟩
          rw [checkRateLimit_reject s now h1 (by omega)]
  · intro s times h
    have := runThrottle_inv times s h
    omega
  · intro env method endpoint s r h
    have := makeRequest_rate_inv 4 env method endpoint s r (by omega) h
    exact ⟨by omega, this.2⟩

/-- Witness for C10: a fresh default client has counter 0; and from a state
at counter 999 of 1000 the invariant applies to a concrete makeRequest
call and to a concrete run of throttle checks. -/
theorem C10_rate_counter_invariant_witness :
    (mkClientState { timeout := none, retryAttempts := none, maxRequestsPerMinute := none }
        0).rateLimitCount = 0 ∧
    (999 : Nat) ≤ 1000 ∧
    (runThrottle
        { accessToken := none, tokenExpiry := none, requestCounter := 0
          rateLimitCount := 999, rateLimitWindow := 0, maxRequestsPerMinute := 1000 }
        [1, 2, 3]).2.rateLimitCount ≤ 1000 ∧
    (makeRequest
        { creds := exCreds, baseURL := exBase, cfg := mkConfig
            { timeout := none, retryAttempts := none, maxRequestsPerMinute := none }
          exchange := fun _ _ => Except.error "down"
          net := fun _ => Except.ok exPayload
          time := fun _ => 50 }
        "GET" "/v2/checkout/orders"
        { accessToken := none, tokenExpiry := none, requestCounter := 0
          rateLimitCount := 999, rateLimitWindow := 0, maxRequestsPerMinute := 1000 }
        0).state.rateLimitCount ≤ 1000 := by
  obtain ⟨hinit, _, hrun, hmk⟩ := C10_rate_counter_invariant
  refine ⟨hinit _ 0, by decide, ?_, ?_⟩
  · exact hrun _ [1, 2, 3] (by decide)
  · exact (hmk _ "GET" "/v2/checkout/orders" _ 0 (by decide)).1

/-- C2: getAccessToken returns the cached token with no exchange whenever a
token is cached and now is strictly before the stored expiry; a call with the
cache guard failing (no cached token, or now at or past the expiry) performs
exactly one client-credentials exchange whose request carries HTTP Basic
authentication built from the credential pair, stores the returned token and
the expiry equal to the exchange time plus expires_in seconds minus a
one-minute margin, and returns the new token; after a successful exchange,
any two further calls strictly inside the validity window return the cached
token with no second exchange, whatever the token endpoint would answer. -/
theorem C2_token_caching :
    (∀ (creds : Credentials) (baseURL : String)
        (exchange : ExchangeRequest → Except String TokenResponse)
        (s : ClientState) (now : Int) (tok : String) (exp : Int),
        s.accessToken = some tok → s.tokenExpiry = some exp →
        tok ≠ "" → exp ≠ 0 → now < exp →
        getAccessToken creds baseURL exchange s now = (TokenOutcome.cachedHit tok, s)) ∧
    (∀ (creds : Credentials) (baseURL : String)
        (exchange : ExchangeRequest → Except String TokenResponse)
        (s : ClientState) (now : Int) (resp : TokenResponse),
        tokenCacheValid s now = false →
        exchange (buildExchangeRequest creds baseURL) = Except.ok resp →
        getAccessToken creds baseURL exchange s now =
          (TokenOutcome.fresh resp.access_token (buildExchangeRequest creds baseURL),
            { s with
                accessToken := some resp.access_token
                tokenExpiry := some (now + resp.expires_in * 1000 - 60000) })) ∧
    (∀ (s : ClientState) (now : Int) (exp : Int),
        s.tokenExpiry = some exp → exp ≤ now → tokenCacheValid s now = false) ∧
    (∀ (s : ClientState) (now : Int),
        s.accessToken = none → tokenCacheValid s now = false) ∧
    (∀ (creds : Credentials) (baseURL : String),
        (buildExchangeRequest creds baseURL).authHeader =
          basicAuth creds.clientId creds.clientSecret) ∧
    (basicAuth "id" "secret" = "Basic aWQ6c2VjcmV0") ∧
    (∀ (creds : Credentials) (baseURL : String)
        (exchange exch2 exch3 : ExchangeRequest → Except String TokenResponse)
        (s : ClientState) (now t₁ t₂ : Int) (resp : TokenResponse),
        tokenCacheValid s now = false →
        exchange (buildExchangeRequest creds baseURL) = Except.ok resp →
        resp.access_token ≠ "" →
        now + resp.expires_in * 1000 - 60000 ≠ 0 →
        t₁ < now + resp.expires_in * 1000 - 60000 →
        t₂ < now + resp.expires_in * 1000 - 60000 →
        getAccessToken creds baseURL exch2
            (getAccessToken creds baseURL exchange s now).2 t₁ =
          (TokenOutcome.cachedHit resp.access_token,
            (getAccessToken creds baseURL exchange s now).2) ∧
        getAccessToken creds baseURL exch3
            (getAccessToken creds baseURL exchange s now).2 t₂ =
          (TokenOutcome.cachedHit resp.access_token,
            (getAccessToken creds baseURL exchange s now).2)) := by
  have hhit : ∀ (creds : Credentials) (baseURL : String)
      (exchange : ExchangeRequest → Except String TokenResponse)
      (s : ClientState) (now : Int) (tok : String) (exp : Int),
      s.accessToken = some tok → s.tokenExpiry = some exp →
      tok ≠ "" → exp ≠ 0 → now < exp →
      getAccessToken creds baseURL exchange s now = (TokenOutcome.cachedHit tok, s) := by
    intro creds baseURL exchange s now tok exp ha he htok hexp hnow
    have hvalid : tokenCacheValid s now = true := by
      simp [tokenCacheValid, ha, he, htok, hexp, hnow]
    simp [getAccessToken, hvalid, ha]
  have hmiss : ∀ (creds : Credentials) (baseURL : String)
      (exchange : ExchangeRequest → Except String TokenResponse)
      (s : ClientState) (now : Int) (resp : TokenResponse),
      tokenCacheValid s now = false →
      exchange (buildExchangeRequest creds baseURL) = Except.ok resp →
      getAccessToken creds baseURL exchange s now =
        (TokenOutcome.fresh resp.access_token (buildExchangeRequest creds baseURL),
          { s with
              accessToken := some resp.access_token
              tokenExpiry := some (now + resp.expires_in * 1000 - 60000) }) := by
    intro creds baseURL exchange s now resp hvalid hex
    simp [getAccessToken, hvalid, hex]
  refine ⟨hhit, hmiss, ?_, ?_, fun _ _ => rfl, by decide, ?_⟩
  · intro s now exp he hle
    rcases ha : s.accessToken with _ | tok
    · simp [tokenCacheValid, ha]
    · simp [tokenCacheValid, ha, he]
      intro _ _
      omega
  · intro s now ha
    simp [tokenCacheValid, ha]
  · intro creds baseURL exchange exch2 exch3 s now t₁ t₂ resp
      hvalid hex htok hE ht₁ ht₂
    rw [hmiss creds baseURL exchange s now resp hvalid hex]
    constructor
    · exact hhit creds baseURL exch2 _ t₁ resp.access_token _ rfl rfl htok hE ht₁
    · exact hhit creds baseURL exch3 _ t₂ resp.access_token _ rfl rfl htok hE ht₂

/-- Witness for C2: a concrete exchange at time 1000000 with expires_in
32400 stores expiry 33340000; two later calls inside the window return the
cached token unchanged, and a call at the expiry instant fails the cache
guard. -/
theorem C2_token_caching_witness :
    getAccessToken exCreds exBase
        (fun _ => Except.ok { access_token := "tok", expires_in := 32400 })
        (mkClientState { timeout := none, retryAttempts := none, maxRequestsPerMinute := none }
          1000000)
        1000000 =
      (TokenOutcome.fresh "tok" (buildExchangeRequest exCreds exBase),
        { accessToken := some "tok", tokenExpiry := some 33340000, requestCounter := 0
          rateLimitCount := 0, rateLimitWindow := 1000000, maxRequestsPerMinute := 1000 }) ∧
    getAccessToken exCreds exBase (fun _ => Except.error "down")
        { accessToken := some "tok", tokenExpiry := some 33340000, requestCounter := 0
          rateLimitCount := 0, rateLimitWindow := 1000000, maxRequestsPerMinute := 1000 }
        2000000 =
      (TokenOutcome.cachedHit "tok",
        { accessToken := some "tok", tokenExpiry := some 33340000, requestCounter := 0
          rateLimitCount := 0, rateLimitWindow := 1000000, maxRequestsPerMinute := 1000 }) ∧
    tokenCacheValid
        { accessToken := some "tok", tokenExpiry := some 33340000, requestCounter := 0
          rateLimitCount := 0, rateLimitWindow := 1000000, maxRequestsPerMinute := 1000 }
        33340000 = false := by
  obtain ⟨hhit, hmiss, hexp, _, _, _, _⟩ := C2_token_caching
  refine ⟨?_, ?_, ?_⟩
  · have := hmiss exCreds exBase
      (fun _ => Except.ok { access_token := "tok", expires_in := 32400 })
      (mkClientState { timeout := none, retryAttempts := none, maxRequestsPerMinute := none }
        1000000)
      1000000 { access_token := "tok", expires_in := 32400 } (by decide) rfl
    simpa using this
  · exact hhit exCreds exBase (fun _ => Except.error "down") _ 2000000 "tok" 33340000
      rfl rfl (by decide) (by decide) (by decide)
  · exact hexp _ 33340000 33340000 rfl (by omega)

/-- Token endpoint answer used by the scenario environments. -/
def exTokResp : TokenResponse := { access_token := "tok", expires_in := 32400 }

/-- Fresh default client state constructed at time 1000000. -/
def exFreshS : ClientState :=
  mkClientState { timeout := none, retryAttempts := none, maxRequestsPerMinute := none } 1000000

/-- Scenario environment: the dispatch fails with HTTP 500 on the first
three attempts and succeeds on the fourth; the token endpoint always
answers; the clock advances 10 seconds per attempt. -/
def env500x3 : Env :=
  { creds := exCreds, baseURL := exBase
    cfg := mkConfig { timeout := none, retryAttempts := none, maxRequestsPerMinute := none }
    exchange := fun _ _ => Except.ok exTokResp
    net := fun k => if k < 3 then Except.error (exErr 500) else Except.ok exPayload
    time := fun k => 1000000 + k * 10000 }

/-- Scenario environment: every dispatch fails with HTTP 404. -/
def env404 : Env :=
  { creds := exCreds, baseURL := exBase
    cfg := mkConfig { timeout := none, retryAttempts := none, maxRequestsPerMinute := none }
    exchange := fun _ _ => Except.ok exTokResp
    net := fun _ => Except.error (exErr 404)
    time := fun k => 1000000 + k * 10000 }

/-- C1: makeRequest retries exactly when the classified error is an
authentication failure or the server-side failure class (the one produced by
HTTP 500) and the retry counter is below the fixed ceiling 3; a dispatch
failing with 500 three times and succeeding on the 4th attempt performs 4
attempts with backoff waits of 1000, 2000, 4000 ms and returns the success
payload; a dispatch failing with 404 is never retried and throws the typed
error carrying the classified kind, status, payload, and correlation id
after a single attempt with no wait. -/
theorem C1_retry_policy :
    (∀ (s : ClientState) (e : AxiosError) (r : Nat),
        shouldRetry (parseError s e).1 r = true ↔
        (((parseError s e).1.type = ErrorType.AUTHENTICATION_FAILURE ∨
          (parseError s e).1.type = ErrorType.INTERNAL_SERVER_ERROR) ∧ r < 3)) ∧
    makeRequest env500x3 "POST" "/v2/checkout/orders" exFreshS 0 =
      { outcome := ReqOutcome.success exPayload
        state :=
          { accessToken := some "tok", tokenExpiry := some 33340000, requestCounter := 4
            rateLimitCount := 4, rateLimitWindow := 1000000, maxRequestsPerMinute := 1000 }
        trace := { attempts := 4, exchanges := 1, waits := [1000, 2000, 4000] } } ∧
    makeRequest env404 "GET" "/v2/checkout/orders" exFreshS 0 =
      { outcome := ReqOutcome.apiError
          { message := "PayPal API Error [NOT_FOUND]: Resource not found"
            type := ErrorType.NOT_FOUND
            status := some 404
            details := some exPayload
            requestId := "1-1000000" }
        state :=
          { accessToken := some "tok", tokenExpiry := some 33340000, requestCounter := 1
            rateLimitCount := 1, rateLimitWindow := 1000000, maxRequestsPerMinute := 1000 }
        trace := { attempts := 1, exchanges := 1, waits := [] } } := by
  refine ⟨?_, ?_, ?_⟩
  · intro s e r
    rcases e with ⟨msg, res⟩
    cases res with
    | none => simp [parseError, shouldRetry]
    | some resp =>
        simp only [parseError, shouldRetry]
        split_ifs with h1 h2 h3 h4 h5 h6 h7 <;> simp_all
  · simp [makeRequest, env500x3, exFreshS, checkRateLimit, getAccessToken, tokenCacheValid,
      mkClientState, parseError, shouldRetry, exErr, exPayload, exTokResp, exCreds, exBase,
      jsOrNat, TokenOutcome.exchangeCount, buildExchangeRequest, basicAuth]
  · simp [makeRequest, env404, exFreshS, checkRateLimit, getAccessToken, tokenCacheValid,
      mkClientState, parseError, shouldRetry, exErr, exPayload, exTokResp, exCreds, exBase,
      jsOrNat, TokenOutcome.exchangeCount, buildExchangeRequest, basicAuth, ErrorType.name]
    decide

/-- Scenario environment: the dispatch fails with HTTP 500 on the first
attempt and succeeds on the second; the token endpoint is DOWN, so any
token exchange would fail the whole call. -/
def env500once : Env :=
  { creds := exCreds, baseURL := exBase
    cfg := mkConfig { timeout := none, retryAttempts := none, maxRequestsPerMinute := none }
    exchange := fun _ _ => Except.error "token endpoint unreachable"
    net := fun k => if k = 0 then Except.error (exErr 500) else Except.ok exPayload
    time := fun k => 1000000 + k * 1000 }

/-- Scenario environment: the dispatch fails with HTTP 401 on the first
attempt and succeeds on the second; the token endpoint answers. -/
def env401once : Env :=
  { creds := exCreds, baseURL := exBase
    cfg := mkConfig { timeout := none, retryAttempts := none, maxRequestsPerMinute := none }
    exchange := fun _ _ => Except.ok exTokResp
    net := fun k => if k = 0 then Except.error (exErr 401) else Except.ok exPayload
    time := fun k => 1000000 + k * 1000 }

/-- Counterexample to C5 as stated: a dispatch from a state holding a valid
cached token fails with HTTP 500; the retry guard holds, yet error
classification leaves the cached token in place, and the whole retried call
succeeds with zero token exchanges — the retried attempt reuses the very
token that just failed (the token endpoint being unreachable proves no fresh
token could have been acquired). -/
theorem C5_counterexample_500_keeps_token :
    shouldRetry (parseError exTokState (exErr 500)).1 0 = true ∧
    (parseError exTokState (exErr 500)).2.accessToken = some "cached-token" ∧
    makeRequest env500once "POST" "/v2/checkout/orders" exTokState 0 =
      { outcome := ReqOutcome.success exPayload
        state :=
          { accessToken := some "cached-token", tokenExpiry := some 5000000
            requestCounter := 2, rateLimitCount := 2, rateLimitWindow := 1000000
            maxRequestsPerMinute := 1000 }
        trace := { attempts := 2, exchanges := 0, waits := [1000] } } := by
  refine ⟨by decide, by decide, ?_⟩
  simp [makeRequest, env500once, exTokState, checkRateLimit, getAccessToken, tokenCacheValid,
    parseError, shouldRetry, exErr, exPayload, exCreds, exBase, jsOrNat, mkConfig,
    TokenOutcome.exchangeCount, buildExchangeRequest, basicAuth]

/-- C5 amended: error classification clears the cached token exactly for an
authentication failure (status 401), so a retry triggered by a 401 acquires
a fresh token; a retry triggered by a 500 keeps and reuses the cached
token. Concretely: a 401-then-success run from a cached-token state performs
exactly one exchange on the retried attempt, while a 500-then-success run
performs none. -/
theorem C5_retry_token_invalidation :
    (∀ (s : ClientState) (e : AxiosError) (resp : HttpResponse),
        e.response = some resp → resp.status = 401 →
        (parseError s e).2.accessToken = none) ∧
    (∀ (s : ClientState) (e : AxiosError) (resp : HttpResponse),
        e.response = some resp → resp.status = 500 →
        (parseError s e).2.accessToken = s.accessToken) ∧
    makeRequest env401once "POST" "/v2/checkout/orders" exTokState 0 =
      { outcome := ReqOutcome.success exPayload
        state :=
          { accessToken := some "tok", tokenExpiry := some 33341000
            requestCounter := 2, rateLimitCount := 2, rateLimitWindow := 1000000
            maxRequestsPerMinute := 1000 }
        trace := { attempts := 2, exchanges := 1, waits := [1000] } } := by
  refine ⟨?_, ?_, ?_⟩
  · intro s e resp he hst
    simp [parseError, he, hst]
  · intro s e resp he hst
    simp [parseError, he, hst]
  · simp [makeRequest, env401once, exTokState, checkRateLimit, getAccessToken, tokenCacheValid,
      parseError, shouldRetry, exErr, exPayload, exTokResp, exCreds, exBase, jsOrNat, mkConfig,
      TokenOutcome.exchangeCount, buildExchangeRequest, basicAuth]

/-- Witness for the amended C5: the 401 and 500 classification effects on
the cached token at a concrete state. -/
theorem C5_retry_token_invalidation_witness :
    (parseError exTokState (exErr 401)).2.accessToken = none ∧
    (parseError exTokState (exErr 500)).2.accessToken = some "cached-token" := by
  obtain ⟨h401, h500, _⟩ := C5_retry_token_invalidation
  refine ⟨h401 exTokState (exErr 401) ⟨401, exPayload⟩ rfl rfl, ?_⟩
  rw [h500 exTokState (exErr 500) ⟨500, exPayload⟩ rfl rfl]
  rfl

/-- Scenario environment with a construction-time configuration of timeout
45000 ms and 5 retry attempts (as examples/full-customization.js supplies),
whose dispatch always fails with HTTP 500. -/
def envCfg45k : Env :=
  { creds := exCreds, baseURL := exBase
    cfg := mkConfig { timeout := some 45000, retryAttempts := some 5, maxRequestsPerMinute := none }
    exchange := fun _ _ => Except.ok exTokResp
    net := fun _ => Except.error (exErr 500)
    time := fun k => 1000000 + k * 10000 }

/-- C9, demonstrating the divergence: the constructor stores the supplied
timeout and retryAttempts (here 45000 and 5, with documented defaults 30000
and 3), but every request configuration makeRequest builds carries the
hardcoded timeout 30000, and the retry guard compares against the literal 3:
retries stop once the counter reaches 3 whatever the configuration, so an
always-500 dispatch under a retryAttempts-5 configuration still performs
exactly 4 attempts. -/
theorem C9_config_timeout_retry_ignored :
    (mkConfig ⟨some 45000, some 5, none⟩).timeout = 45000 ∧
    (mkConfig ⟨some 45000, some 5, none⟩).retryAttempts = 5 ∧
    (mkConfig ⟨none, none, none⟩).timeout = 30000 ∧
    (mkConfig ⟨none, none, none⟩).retryAttempts = 3 ∧
    (∀ (cfg : ClientConfig) (baseURL method endpoint token requestId : String),
        (buildAxiosConfig cfg baseURL method endpoint token requestId).timeout = 30000) ∧
    (∀ (p : ParsedError) (r : Nat), shouldRetry p (r + 3) = false) ∧
    (makeRequest envCfg45k "POST" "/v2/checkout/orders" exFreshS 0).trace.attempts = 4 ∧
    (makeRequest envCfg45k "POST" "/v2/checkout/orders" exFreshS 0).trace.waits =
      [1000, 2000, 4000] := by
  refine ⟨rfl, rfl, rfl, rfl, fun _ _ _ _ _ _ => rfl, ?_, ?_, ?_⟩
  · intro p r
    simp [shouldRetry]
  · simp [makeRequest, envCfg45k, exFreshS, checkRateLimit, getAccessToken, tokenCacheValid,
      mkClientState, parseError, shouldRetry, exErr, exPayload, exTokResp, exCreds, exBase,
      jsOrNat, mkConfig, TokenOutcome.exchangeCount, buildExchangeRequest, basicAuth]
  · simp [makeRequest, envCfg45k, exFreshS, checkRateLimit, getAccessToken, tokenCacheValid,
      mkClientState, parseError, shouldRetry, exErr, exPayload, exTokResp, exCreds, exBase,
      jsOrNat, mkConfig, TokenOutcome.exchangeCount, buildExchangeRequest, basicAuth]

/-- Transport headers of an inbound webhook notification (src/index.js
lines 502-510). -/
structure WebhookHeaders where
  paypalAuthAlgo : String
  paypalCertId : String
  paypalTransmissionId : String
  paypalTransmissionSig : String
  paypalTransmissionTime : String
deriving DecidableEq, Repr

/-- Body of the verify-webhook-signature call (src/index.js lines 502-510). -/
structure VerificationData where
  auth_algo : String
  cert_id : String
  transmission_id : String
  transmission_sig : String
  transmission_time : String
  webhook_id : String
  webhook_event : Payload
deriving DecidableEq, Repr

/-- The verification request body verifyWebhook builds from the headers,
event body, and webhook id (src/index.js lines 502-510). -/
def buildVerificationData (headers : WebhookHeaders) (body : Payload)
    (webhookId : String) : VerificationData :=
  { auth_algo := headers.paypalAuthAlgo
    cert_id := headers.paypalCertId
    transmission_id := headers.paypalTransmissionId
    transmission_sig := headers.paypalTransmissionSig
    transmission_time := headers.paypalTransmissionTime
    webhook_id := webhookId
    webhook_event := body }

/-- verifyWebhook (src/index.js lines 501-519). Posts the verification data
to the verify-webhook-signature endpoint through makeRequest; returns
whether the response's verification status equals SUCCESS, and false if the
call threw for any reason (the catch swallows every error). -/
def verifyWebhook (env : Env) (headers : WebhookHeaders) (body : Payload)
    (webhookId : String) (s : ClientState) : Bool × ClientState :=
  let _data := buildVerificationData headers body webhookId
  let r := makeRequest env "POST" "/v1/notifications/verify-webhook-signature" s 0
  match r.outcome with
  | ReqOutcome.success result => (result.verification_status == some "SUCCESS", r.state)
  | _ => (false, r.state)

/-- C6: verifyWebhook never raises — it is a total boolean function of the
call's outcome — and returns true exactly when the verification call
succeeds with a response whose verification status field equals SUCCESS;
every other status value and every thrown error (network failure, non-2xx
response classified and thrown, local throttle rejection, token failure)
yields false. -/
theorem C6_verifyWebhook :
    ∀ (env : Env) (headers : WebhookHeaders) (body : Payload)
      (webhookId : String) (s : ClientState),
      ((verifyWebhook env headers body webhookId s).1 = true ↔
        (∃ p : Payload,
          (makeRequest env "POST" "/v1/notifications/verify-webhook-signature" s 0).outcome =
            ReqOutcome.success p ∧ p.verification_status = some "SUCCESS")) ∧
      (∀ p : Payload,
        (makeRequest env "POST" "/v1/notifications/verify-webhook-signature" s 0).outcome =
          ReqOutcome.success p → p.verification_status ≠ some "SUCCESS" →
        (verifyWebhook env headers body webhookId s).1 = false) ∧
      (∀ e : EnhancedError,
        (makeRequest env "POST" "/v1/notifications/verify-webhook-signature" s 0).outcome =
          ReqOutcome.apiError e →
        (verifyWebhook env headers body webhookId s).1 = false) ∧
      ((makeRequest env "POST" "/v1/notifications/verify-webhook-signature" s 0).outcome =
          ReqOutcome.rateLimited →
        (verifyWebhook env headers body webhookId s).1 = false) ∧
      (∀ msg : String,
        (makeRequest env "POST" "/v1/notifications/verify-webhook-signature" s 0).outcome =
          ReqOutcome.tokenFailed msg →
        (verifyWebhook env headers body webhookId s).1 = false) ∧
      (verifyWebhook env headers body webhookId s).2 =
        (makeRequest env "POST" "/v1/notifications/verify-webhook-signature" s 0).state := by
  intro env headers body webhookId s
  simp only [verifyWebhook]
  rcases hout : (makeRequest env "POST" "/v1/notifications/verify-webhook-signature" s 0).outcome
    with p | e | _ | msg
  · refine ⟨?_, ?_, ?_, ?_, ?_, rfl⟩
    · constructor
      · intro h
        exact ⟨p, rfl, by simpa using h⟩
      · rintro ⟨q, hq, hs⟩
        cases hq
        simpa using hs
    · intro q hq hne
      cases hq
      simpa using hne
    · intro e he
      cases he
    · intro he
      cases he
    · intro m hm
      cases hm
  · refine ⟨?_, ?_, fun _ _ => rfl, ?_, ?_, rfl⟩
    · constructor
      · intro h
        simp at h
      · rintro ⟨q, hq, _⟩
        cases hq
    · intro q hq hne
      cases hq
    · intro h
      cases h
    · intro m hm
      cases hm
  · refine ⟨?_, ?_, ?_, fun _ => rfl, ?_, rfl⟩
    · constructor
      · intro h
        simp at h
      · rintro ⟨q, hq, _⟩
        cases hq
    · intro q hq hne
      cases hq
    · intro e he
      cases he
    · intro m hm
      cases hm
  · refine ⟨?_, ?_, ?_, ?_, fun _ _ => rfl, rfl⟩
    · constructor
      · intro h
        simp at h
      · rintro ⟨q, hq, _⟩
        cases hq
    · intro q hq hne
      cases hq
    · intro e he
      cases he
    · intro h
      cases h
/-- Example webhook transport headers. -/
def exHeaders : WebhookHeaders :=
  { paypalAuthAlgo := "SHA256withRSA", paypalCertId := "CERT-360caa42"
    paypalTransmissionId := "69cd13f0-d67a-11e5", paypalTransmissionSig := "lmI95Jx3Y9nhR5SJWlHVIWpg4AgFk7n9bCHSRxbrd8A="
    paypalTransmissionTime := "2016-02-18T20:01:35Z" }

/-- Scenario environment: the verification endpoint answers SUCCESS. -/
def envVerifyOk : Env :=
  { creds := exCreds, baseURL := exBase
    cfg := mkConfig { timeout := none, retryAttempts := none, maxRequestsPerMinute := none }
    exchange := fun _ _ => Except.ok exTokResp
    net := fun _ => Except.ok { message := none, verification_status := some "SUCCESS" }
    time := fun _ => 1000000 }

/-- Scenario environment: the verification endpoint answers FAILURE. -/
def envVerifyBad : Env :=
  { creds := exCreds, baseURL := exBase
    cfg := mkConfig { timeout := none, retryAttempts := none, maxRequestsPerMinute := none }
    exchange := fun _ _ => Except.ok exTokResp
    net := fun _ => Except.ok { message := none, verification_status := some "FAILURE" }
    time := fun _ => 1000000 }

/-- Witness for C6: a concrete SUCCESS verification yields true and a
concrete FAILURE verification yields false. -/
theorem C6_verifyWebhook_witness :
    (verifyWebhook envVerifyOk exHeaders exPayload "WH-ID" exFreshS).1 = true ∧
    (verifyWebhook envVerifyBad exHeaders exPayload "WH-ID" exFreshS).1 = false := by
  have hok : (makeRequest envVerifyOk "POST" "/v1/notifications/verify-webhook-signature"
      exFreshS 0).outcome =
      ReqOutcome.success { message := none, verification_status := some "SUCCESS" } := by
    simp [makeRequest, envVerifyOk, exFreshS, checkRateLimit, getAccessToken, tokenCacheValid,
      mkClientState, parseError, shouldRetry, exTokResp, exCreds, exBase, jsOrNat, mkConfig,
      TokenOutcome.exchangeCount, buildExchangeRequest, basicAuth]
  have hbad : (makeRequest envVerifyBad "POST" "/v1/notifications/verify-webhook-signature"
      exFreshS 0).outcome =
      ReqOutcome.success { message := none, verification_status := some "FAILURE" } := by
    simp [makeRequest, envVerifyBad, exFreshS, checkRateLimit, getAccessToken, tokenCacheValid,
      mkClientState, parseError, shouldRetry, exTokResp, exCreds, exBase, jsOrNat, mkConfig,
      TokenOutcome.exchangeCount, buildExchangeRequest, basicAuth]
  constructor
  · exact (C6_verifyWebhook envVerifyOk exHeaders exPayload "WH-ID" exFreshS).1.mpr
      ⟨{ message := none, verification_status := some "SUCCESS" }, hok, rfl⟩
  · exact (C6_verifyWebhook envVerifyBad exHeaders exPayload "WH-ID" exFreshS).2.1
      { message := none, verification_status := some "FAILURE" } hbad (by decide)

/-- Decimal digit character for a digit value below 10. -/
def digitChar (d : Nat) : Char := "0123456789".toList.getD d '0'

/-- Little-endian decimal digits with explicit fuel (structural recursion so
that concrete values compute by decide); fuel at least n suffices. -/
def digitsAuxF : Nat → Nat → List Nat
  | _, 0 => []
  | 0, _ + 1 => []
  | fuel + 1, n + 1 => ((n + 1) % 10) :: digitsAuxF fuel ((n + 1) / 10)

/-- Little-endian decimal digits of a natural number. -/
def decDigits (n : Nat) : List Nat := digitsAuxF n n

/-- Value of a little-endian digit list. -/
def ofVal : List Nat → Nat
  | [] => 0
  | d :: l => d + 10 * ofVal l

/-- Decimal rendering of a natural number, as JavaScript number-to-string
produces for a nonnegative integer: most significant digit first, and the
single digit 0 for zero. -/
def natToDecimalChars (m : Nat) : List Char :=
  if m = 0 then ['0'] else (decDigits m).reverse.map digitChar

/-- The characters of Number.prototype.toFixed(2) applied to the exact value
cents / 100: optional minus sign, the decimal rendering of the integer part,
a dot, and exactly the two fraction digits of the hundredths value. -/
def toFixed2Chars (cents : Int) : List Char :=
  let n := cents.natAbs
  (if cents < 0 then ['-'] else []) ++ natToDecimalChars (n / 100) ++
    '.' :: [digitChar (n % 100 / 10), digitChar (n % 10)]

/-- The string (amount / 100).toFixed(2) of src/index.js line 530, for an
integer minor-unit amount. -/
def toFixed2 (cents : Int) : String := String.mk (toFixed2Chars cents)

/-- The amount object formatCurrency returns (src/index.js lines 527-532). -/
structure Money where
  currency_code : String
  value : String
deriving DecidableEq, Repr

/-- formatCurrency (src/index.js lines 527-532): the input currency code and
the two-decimal string of amount / 100. -/
def formatCurrency (amount : Int) (currency : String) : Money :=
  { currency_code := currency, value := toFixed2 amount }

/-- Split a character list at the first dot, returning the parts before and
after it. -/
def splitAtDot : List Char → Option (List Char × List Char)
  | [] => none
  | c :: rest =>
      if c = '.' then some ([], rest)
      else (splitAtDot rest).map (fun p => (c :: p.1, p.2))

/-- Big-endian numeric value of a digit-character list. -/
def charsToNat (cs : List Char) : Nat :=
  cs.foldl (fun acc c => acc * 10 + (c.toNat - 48)) 0

/-- Parse an unsigned two-decimal money string back into minor units. -/
def parseUnsigned (cs : List Char) : Option Nat :=
  match splitAtDot cs with
  | none => none
  | some (ip, fp) =>
      if ip.isEmpty then none
      else if ip.all Char.isDigit && fp.all Char.isDigit && decide (fp.length = 2) then
        some (charsToNat ip * 100 + charsToNat fp)
      else none

/-- Parse a signed two-decimal money string back into integer minor units:
the inverse reading of a toFixed(2) rendering. -/
def parseMoneyValue (s : String) : Option Int :=
  match s.toList with
  | [] => none
  | c :: cs =>
      if c = '-' then (parseUnsigned cs).map (fun v => -(v : Int))
      else (parseUnsigned (c :: cs)).map (fun v => (v : Int))

/-- The fueled digit expansion evaluates back to its input once the fuel
covers it. -/
theorem digitsAuxF_val : ∀ (fuel n : Nat), n ≤ fuel → ofVal (digitsAuxF fuel n) = n := by
  intro fuel
  induction fuel with
  | zero =>
      intro n hn
      interval_cases n
      rfl
  | succ f ih =>
      intro n hn
      match n with
      | 0 => rfl
      | m + 1 =>
          have hle : (m + 1) / 10 ≤ f := by omega
          simp only [digitsAuxF, ofVal, ih ((m + 1) / 10) hle]
          omega

/-- Every entry of the fueled digit expansion is a digit. -/
theorem digitsAuxF_lt : ∀ (fuel n d : Nat), d ∈ digitsAuxF fuel n → d < 10 := by
  intro fuel
  induction fuel with
  | zero =>
      intro n d hd
      match n with
      | 0 => simp [digitsAuxF] at hd
      | m + 1 => simp [digitsAuxF] at hd
  | succ f ih =>
      intro n d hd
      match n with
      | 0 => simp [digitsAuxF] at hd
      | m + 1 =>
          simp only [digitsAuxF, List.mem_cons] at hd
          rcases hd with h | h
          · omega
          · exact ih _ d h

/-- Character value of a digit character. -/
theorem digitChar_val (d : Nat) (hd : d < 10) : (digitChar d).toNat - 48 = d := by
  interval_cases d <;> decide

/-- A digit character is a digit. -/
theorem digitChar_isDigit (d : Nat) (hd : d < 10) : (digitChar d).isDigit = true := by
  interval_cases d <;> decide

/-- A digit character is not a dot. -/
theorem isDigit_ne_dot (c : Char) (h : c.isDigit = true) : c ≠ '.' := by
  intro hc
  subst hc
  simp [Char.isDigit] at h

/-- A digit character is not a minus sign. -/
theorem isDigit_ne_minus (c : Char) (h : c.isDigit = true) : c ≠ '-' := by
  intro hc
  subst hc
  simp [Char.isDigit] at h

/-- Reading a rendered digit list back gives its value. -/
theorem charsToNat_render : ∀ (l : List Nat), (∀ d ∈ l, d < 10) →
    charsToNat (l.reverse.map digitChar) = ofVal l := by
  intro l
  induction l with
  | nil => intro _; rfl
  | cons d l ih =>
      intro hb
      have hd : d < 10 := hb d (List.mem_cons_self d l)
      simp only [List.reverse_cons, List.map_append, List.map_cons, List.map_nil]
      simp only [charsToNat, List.foldl_append, List.foldl_cons, List.foldl_nil]
      have := ih (fun x hx => hb x (List.mem_cons_of_mem d hx))
      simp only [charsToNat] at this
      rw [this, digitChar_val d hd]
      simp only [ofVal]
      omega

/-- splitAtDot recovers the two halves around the first dot. -/
theorem splitAtDot_append : ∀ (ip fp : List Char), (∀ c ∈ ip, c ≠ '.') →
    splitAtDot (ip ++ '.' :: fp) = some (ip, fp) := by
  intro ip fp
  induction ip with
  | nil => intro _; simp [splitAtDot]
  | cons c cs ih =>
      intro hc
      have hcne : ¬ (c = '.') := hc c (List.mem_cons_self c cs)
      simp [splitAtDot, if_neg hcne,
        ih (fun x hx => hc x (List.mem_cons_of_mem c hx))]

/-- The decimal rendering of a natural number is nonempty, consists of digit
characters, and reads back to the number. -/
theorem natToDecimalChars_spec (m : Nat) :
    natToDecimalChars m ≠ [] ∧ (∀ c ∈ natToDecimalChars m, c.isDigit = true) ∧
    charsToNat (natToDecimalChars m) = m := by
  by_cases hm : m = 0
  · subst hm
    refine ⟨by decide, by decide, by decide⟩
  · simp only [natToDecimalChars, if_neg hm]
    have hlt : ∀ d ∈ decDigits m, d < 10 := fun d hd => digitsAuxF_lt m m d hd
    refine ⟨?_, ?_, ?_⟩
    · match hme : m with
      | m' + 1 => simp [decDigits, digitsAuxF]
    · intro c hc
      simp only [List.mem_map, List.mem_reverse] at hc
      obtain ⟨d, hd, rfl⟩ := hc
      exact digitChar_isDigit d (hlt d hd)
    · rw [charsToNat_render (decDigits m) hlt]
      exact digitsAuxF_val m m le_rfl

/-- Reading back the two fraction digits gives the hundredths value. -/
theorem charsToNat_frac (n : Nat) :
    charsToNat [digitChar (n % 100 / 10), digitChar (n % 10)] = n % 100 := by
  simp only [charsToNat, List.foldl_cons, List.foldl_nil]
  rw [digitChar_val (n % 100 / 10) (by omega), digitChar_val (n % 10) (by omega)]
  omega

/-- Parsing inverts the unsigned rendering: the toFixed(2) characters of a
nonnegative value read back to it. -/
theorem parseUnsigned_render (n : Nat) :
    parseUnsigned (natToDecimalChars (n / 100) ++
      '.' :: [digitChar (n % 100 / 10), digitChar (n % 10)]) = some n := by
  obtain ⟨hne, hdig, hval⟩ := natToDecimalChars_spec (n / 100)
  rw [parseUnsigned, splitAtDot_append _ _
    (fun c hc => isDigit_ne_dot c (hdig c hc))]
  simp only [List.isEmpty_iff]
  rw [if_neg hne]
  have hall : (natToDecimalChars (n / 100)).all Char.isDigit = true := by
    rw [List.all_eq_true]
    exact hdig
  have hfrac : ([digitChar (n % 100 / 10), digitChar (n % 10)]).all Char.isDigit = true := by
    simp [digitChar_isDigit (n % 100 / 10) (by omega), digitChar_isDigit (n % 10) (by omega)]
  rw [hall, hfrac]
  simp only [List.length_cons, List.length_nil]
  rw [hval, charsToNat_frac]
  norm_num
  omega

/-- Parsing inverts the signed rendering: the toFixed(2) string of any
integer minor-unit amount reads back to that amount. -/
theorem parse_toFixed2 (a : Int) : parseMoneyValue (toFixed2 a) = some a := by
  obtain ⟨hne, hdig, _⟩ := natToDecimalChars_spec (a.natAbs / 100)
  by_cases ha : a < 0
  · have hchars : toFixed2 a = String.mk ('-' :: (natToDecimalChars (a.natAbs / 100) ++
        '.' :: [digitChar (a.natAbs % 100 / 10), digitChar (a.natAbs % 10)])) := by
      simp [toFixed2, toFixed2Chars, ha]
    rw [hchars]
    simp only [parseMoneyValue, String.toList, if_pos rfl]
    rw [parseUnsigned_render a.natAbs]
    have hval : -((a.natAbs : Nat) : Int) = a := by omega
    simp [hval]
    rw [abs_of_neg ha]
    exact neg_neg a
  · rcases hip : natToDecimalChars (a.natAbs / 100) with _ | ⟨c, cs⟩
    · exact absurd hip hne
    · have hchars : toFixed2 a = String.mk (c :: (cs ++
          '.' :: [digitChar (a.natAbs % 100 / 10), digitChar (a.natAbs % 10)])) := by
        simp [toFixed2, toFixed2Chars, ha, hip]
      rw [hchars]
      have hcd : c.isDigit = true := hdig c (by rw [hip]; exact List.mem_cons_self c cs)
      simp only [parseMoneyValue, String.toList, if_neg (isDigit_ne_minus c hcd)]
      have : (c :: (cs ++ '.' :: [digitChar (a.natAbs % 100 / 10),
          digitChar (a.natAbs % 10)])) = natToDecimalChars (a.natAbs / 100) ++
          '.' :: [digitChar (a.natAbs % 100 / 10), digitChar (a.natAbs % 10)] := by
        rw [hip]
        rfl
      rw [this, parseUnsigned_render a.natAbs]
      have hval : ((a.natAbs : Nat) : Int) = a := by omega
      simp [hval]

/-- C7: formatCurrency returns the input currency code unchanged, and a
value string consisting of an integer part, a single decimal point, and
exactly two digit characters after it, which is precisely the decimal
rendering of amount / 100: parsing the value back yields the amount, and the
given concrete examples hold. -/
theorem C7_formatCurrency :
    (∀ (amount : Int) (currency : String),
        (formatCurrency amount currency).currency_code = currency) ∧
    (∀ (amount : Int) (currency : String),
        ∃ (pre : List Char) (d₁ d₂ : Char),
          ((formatCurrency amount currency).value).toList = pre ++ '.' :: [d₁, d₂] ∧
          ('.' ∉ pre) ∧ d₁.isDigit = true ∧ d₂.isDigit = true) ∧
    (∀ (amount : Int) (currency : String),
        parseMoneyValue (formatCurrency amount currency).value = some amount) ∧
    formatCurrency 2500 "USD" = { currency_code := "USD", value := "25.00" } ∧
    formatCurrency 0 "GBP" = { currency_code := "GBP", value := "0.00" } := by
  refine ⟨fun _ _ => rfl, ?_, fun amount _ => parse_toFixed2 amount, by decide, by decide⟩
  intro amount currency
  obtain ⟨_, hdig, _⟩ := natToDecimalChars_spec (amount.natAbs / 100)
  refine ⟨(if amount < 0 then ['-'] else []) ++ natToDecimalChars (amount.natAbs / 100),
    digitChar (amount.natAbs % 100 / 10), digitChar (amount.natAbs % 10), ?_, ?_, ?_, ?_⟩
  · simp [formatCurrency, toFixed2, toFixed2Chars, String.toList]
  · intro hmem
    rw [List.mem_append] at hmem
    rcases hmem with h | h
    · split_ifs at h <;> simp_all
    · exact absurd rfl (isDigit_ne_dot '.' (hdig '.' h))
  · exact digitChar_isDigit _ (by omega)
  · exact digitChar_isDigit _ (by omega)

/-- A JavaScript value passed as the amount: a number, or anything whose
typeof is not number. -/
inductive JsAmount where
  | num (q : Rat)
  | notNum
deriving DecidableEq, Repr

/-- The currency-minimum table of validateAmount (src/index.js lines
911-916): 100 minor units for USD, EUR, GBP and JPY, nothing configured for
any other code. -/
def currencyMinimums (currency : String) : Option Rat :=
  if currency = "USD" then some 100
  else if currency = "EUR" then some 100
  else if currency = "GBP" then some 100
  else if currency = "JPY" then some 100
  else none

/-- validateAmount (src/index.js lines 905-919): false for a non-number and
for any amount at or below zero; otherwise the amount must reach the
currency minimum, defaulting to 100 when the table has no entry (the stored
minimums are all nonzero, so the JavaScript or-default is the Option
default). -/
def validateAmount (amount : JsAmount) (currency : String) : Bool :=
  match amount with
  | JsAmount.notNum => false
  | JsAmount.num q =>
      if q ≤ 0 then false
      else decide ((currencyMinimums currency).getD 100 ≤ q)

/-- C8: validateAmount rejects every non-numeric amount and every amount at
or below zero; a positive numeric amount is accepted exactly when it reaches
the currency-specific minimum, and that minimum is 100 minor units for every
currency without an explicitly configured entry. -/
theorem C8_validateAmount :
    (∀ currency : String, validateAmount JsAmount.notNum currency = false) ∧
    (∀ (q : Rat) (currency : String), q ≤ 0 →
        validateAmount (JsAmount.num q) currency = false) ∧
    (∀ (q : Rat) (currency : String), 0 < q →
        (validateAmount (JsAmount.num q) currency = true ↔
          (currencyMinimums currency).getD 100 ≤ q)) ∧
    (∀ currency : String, currencyMinimums currency = none →
        (currencyMinimums currency).getD 100 = 100) := by
  refine ⟨fun _ => rfl, ?_, ?_, ?_⟩
  · intro q currency hq
    simp [validateAmount, hq]
  · intro q currency hq
    simp [validateAmount, not_le.mpr hq]
  · intro currency h
    rw [h]
    rfl

/-- Witness for C8: 150 minor units pass for EUR, 50 fail, negative and
non-numeric amounts fail, and an unconfigured currency has minimum 100. -/
theorem C8_validateAmount_witness :
    validateAmount (JsAmount.num 150) "EUR" = true ∧
    validateAmount (JsAmount.num 50) "EUR" = false ∧
    validateAmount (JsAmount.num (-5)) "USD" = false ∧
    validateAmount JsAmount.notNum "XYZ" = false ∧
    (currencyMinimums "CHF").getD 100 = 100 := by
  obtain ⟨hnn, hle, hiff, hdef⟩ := C8_validateAmount
  refine ⟨?_, ?_, hle (-5) "USD" (by norm_num), hnn "XYZ", hdef "CHF" rfl⟩
  · exact (hiff 150 "EUR" (by norm_num)).mpr (by norm_num [currencyMinimums])
  · have h := hiff 50 "EUR" (by norm_num)
    cases hb : validateAmount (JsAmount.num 50) "EUR"
    · rfl
    · have := h.mp hb
      norm_num [currencyMinimums] at this

end EzPaypal
